import Mathlib

/-!
Verification of the write-ahead log (WAL) and recovery subsystem of the
upscaledb/hamsterdb embedded key/value engine, as described in spec.md.
The repository snapshot ships the subsystem's unit tests
(src/unittests/log.cpp) and the page header (src/src/page.h); the log
implementation itself (log.c/log.h, txn, db glue) is not part of the
snapshot, so the definitions below are modelled from the specification,
with the unit tests fixing the concrete expectations.  Page payloads are
kept symbolic at the key/value granularity, as the spec's end-to-end
scenarios do ("literal values, payloads symbolic").
-/

set_option maxRecDepth 10000

/-- Page images are kept symbolic: the association list of key/value pairs
stored on a (btree) page.  PREWRITE/WRITE/OVERWRITE entries carry such
images as their before- and after-image payloads. -/
abbrev Image := List (String × String)

/-- Modelled from the spec (§3, §6): the `type` stored in the
flags-and-type word of a log entry. -/
inductive LogEntryType where
  | txn_begin
  | txn_abort
  | txn_commit
  | checkpoint
  | flush_page
  | prewrite
  | write
  | overwrite
deriving DecidableEq, Repr

/-- Modelled from the spec (§3, §6): one log entry: a fixed-size header
(lsn, txn_id, type, offset, data_size) followed by an optional payload.
`img1` is the single image of a PREWRITE (before-image) or WRITE
(after-image); an OVERWRITE carries both halves, `img1` the old image and
`img2` the new image.  `lsn = 0` is the reserved "no entry" sentinel. -/
structure LogEntry where
  lsn : Nat := 0
  txn_id : Nat := 0
  etype : LogEntryType := LogEntryType.txn_begin
  offset : Nat := 0
  data_size : Nat := 0
  img1 : Option Image := none
  img2 : Option Image := none
deriving DecidableEq, Repr

/-- Modelled from the spec (§3): the per-file part of the runtime log
object: the entries held by the file (in append order; the on-disk file is
the fixed header followed by these entries) and the `open_txn` /
`closed_txn` counters. -/
structure LogFile where
  entries : List LogEntry := []
  open_txn : Nat := 0
  closed_txn : Nat := 0
deriving DecidableEq, Repr

/-- Modelled from the spec (§3): the runtime log object `ham_log_t`: the
two files, the index of the current file (0 or 1; appends go only to the
current file), the current LSN, the LSN of the last checkpoint and the
checkpoint threshold. -/
structure HamLog where
  current_fd : Nat := 0
  lsn : Nat := 1
  last_checkpoint_lsn : Nat := 0
  threshold : Nat := 0
  f0 : LogFile := {}
  f1 : LogFile := {}
deriving DecidableEq, Repr

/-- Modelled from the spec (§4.3): the default checkpoint threshold a
freshly created log starts with (the spec fixes no constant; the unit
tests only rely on it being large enough that their short workloads do
not rotate before they lower it with `log_set_threshold`). -/
def log_default_threshold : Nat := 64

/-- File accessor: index 0 is the first file, anything else the second
(the index is 0 or 1 in every reachable state). -/
def log_get_file (log : HamLog) (i : Nat) : LogFile :=
  if i = 0 then log.f0 else log.f1

/-- File update, matching `log_get_file`. -/
def log_set_file (log : HamLog) (i : Nat) (f : LogFile) : HamLog :=
  if i = 0 then { log with f0 := f } else { log with f1 := f }

/-- Index of the non-current file of the pair. -/
def log_other_fd (log : HamLog) : Nat :=
  if log.current_fd = 0 then 1 else 0

/-- Counter accessor `log_get_open_txn`. -/
def log_get_open_txn (log : HamLog) (i : Nat) : Nat :=
  (log_get_file log i).open_txn

/-- Counter accessor `log_get_closed_txn`. -/
def log_get_closed_txn (log : HamLog) (i : Nat) : Nat :=
  (log_get_file log i).closed_txn

/-- Modelled from the spec (§4.7 create): a fresh log: both files
header-only, LSN 1, current file 0, counters 0. -/
def ham_log_create : HamLog :=
  { current_fd := 0, lsn := 1, last_checkpoint_lsn := 0,
    threshold := log_default_threshold, f0 := {}, f1 := {} }

/-- Setter for the checkpoint threshold (`log_set_threshold`). -/
def log_set_threshold (log : HamLog) (t : Nat) : HamLog :=
  { log with threshold := t }

/-- Modelled from the spec (§4.3): the common append path: stamp the entry
with the current LSN, write it to the tail of the current file, increment
the LSN. -/
def log_append_entry (log : HamLog) (e : LogEntry) : HamLog :=
  let f := log_get_file log log.current_fd
  let log2 := log_set_file log log.current_fd
      { f with entries := f.entries ++ [{ e with lsn := log.lsn }] }
  { log2 with lsn := log.lsn + 1 }

/-- Increment `open_txn` of the current file (a transaction began). -/
def log_bump_open (log : HamLog) : HamLog :=
  let f := log_get_file log log.current_fd
  log_set_file log log.current_fd { f with open_txn := f.open_txn + 1 }

/-- Migrate one transaction of the current file from open to closed
(a transaction committed or aborted). -/
def log_bump_closed (log : HamLog) : HamLog :=
  let f := log_get_file log log.current_fd
  log_set_file log log.current_fd
    { f with open_txn := f.open_txn - 1, closed_txn := f.closed_txn + 1 }

/-- Modelled from the spec (§4.3): `append_checkpoint` writes a CHECKPOINT
entry (a system entry, txn id 0) and stamps the last-checkpoint LSN. -/
def ham_log_append_checkpoint (log : HamLog) : HamLog :=
  let at_lsn := log.lsn
  let log2 := log_append_entry log { etype := LogEntryType.checkpoint }
  { log2 with last_checkpoint_lsn := at_lsn }

/-- Modelled from the spec (§4.3, §9): rotation: flip the current-file
index, truncate the new current file to header-only and reset its
counters. -/
def log_rotate (log : HamLog) : HamLog :=
  let newcur := log_other_fd log
  let log2 := log_set_file log newcur {}
  { log2 with current_fd := newcur }

/-- Modelled from the spec (§3, §4.3 checkpoint policy): after a commit or
abort, when no transaction is open in the current file and the closed-
transaction count has crossed the threshold, append a CHECKPOINT and
rotate. -/
def log_maybe_checkpoint (log : HamLog) : HamLog :=
  let f := log_get_file log log.current_fd
  if f.open_txn = 0 ∧ log.threshold ≤ f.closed_txn then
    log_rotate (ham_log_append_checkpoint log)
  else log

/-- Modelled from the spec (§4.3): `append_txn_begin` stamps a TXN_BEGIN
entry with the transaction's id and increments `open_txn[current]`. -/
def ham_log_append_txn_begin (log : HamLog) (tid : Nat) : HamLog :=
  log_bump_open (log_append_entry log
    { txn_id := tid, etype := LogEntryType.txn_begin })

/-- Modelled from the spec (§4.3): `append_txn_commit` writes a TXN_COMMIT
entry, migrates the transaction to closed, then may insert a checkpoint
and rotate. -/
def ham_log_append_txn_commit (log : HamLog) (tid : Nat) : HamLog :=
  log_maybe_checkpoint (log_bump_closed (log_append_entry log
    { txn_id := tid, etype := LogEntryType.txn_commit }))

/-- Modelled from the spec (§4.3): `append_txn_abort`, same counter update
as commit; the rotation delayed by open transactions happens at the next
commit or abort that brings `open_txn[current]` to zero. -/
def ham_log_append_txn_abort (log : HamLog) (tid : Nat) : HamLog :=
  log_maybe_checkpoint (log_bump_closed (log_append_entry log
    { txn_id := tid, etype := LogEntryType.txn_abort }))

/-- Modelled from the spec (§4.3): `append_flush_page`, a system entry
(txn id 0) with the page's address as offset and no payload. -/
def ham_log_append_flush_page (log : HamLog) (off : Nat) : HamLog :=
  log_append_entry log { etype := LogEntryType.flush_page, offset := off }

/-- Modelled from the spec (§4.3): `append_prewrite` carries the
before-image of a byte range. -/
def ham_log_append_prewrite (log : HamLog) (tid off size : Nat)
    (img : Image) : HamLog :=
  log_append_entry log
    { txn_id := tid, etype := LogEntryType.prewrite, offset := off,
      data_size := size, img1 := some img }

/-- Modelled from the spec (§4.3): `append_write` carries the
after-image. -/
def ham_log_append_write (log : HamLog) (tid off size : Nat)
    (img : Image) : HamLog :=
  log_append_entry log
    { txn_id := tid, etype := LogEntryType.write, offset := off,
      data_size := size, img1 := some img }

/-- Modelled from the spec (§4.3): `append_overwrite` carries both images
in one record (old image first, new image second, `2 * size` payload
bytes). -/
def ham_log_append_overwrite (log : HamLog) (tid off size : Nat)
    (old_img new_img : Image) : HamLog :=
  log_append_entry log
    { txn_id := tid, etype := LogEntryType.overwrite, offset := off,
      data_size := 2 * size, img1 := some old_img, img2 := some new_img }

/-- Modelled from the spec (§4.3): `is_empty` is true iff both files hold
only their header, i.e. no entries. -/
def ham_log_is_empty (log : HamLog) : Prop :=
  log.f0.entries = [] ∧ log.f1.entries = []

instance (log : HamLog) : Decidable (ham_log_is_empty log) := by
  unfold ham_log_is_empty; infer_instance

/-- Modelled from the spec (§4.3): `clear` truncates both files to the
header and resets the LSN to 1 and the counters to 0; the current-file
index returns to 0, the state of a freshly created log (the state the
unit test createCloseOpenFullLogRecoverTest observes after recovery). -/
def ham_log_clear (log : HamLog) : HamLog :=
  { log with lsn := 1, current_fd := 0, f0 := {}, f1 := {} }

/-- All entries ever appended and still retained, in chronological order:
the non-current file holds the older entries (it is truncated when it
becomes current at a rotation), the current file the newer ones. -/
def log_entries_chronological (log : HamLog) : List LogEntry :=
  (log_get_file log (log_other_fd log)).entries ++
    (log_get_file log log.current_fd).entries

/-- Modelled from the spec (§4.4): the iterator yields entries in reverse
chronological order: it starts at the most recently written entry of the
current file, walks that file backward to its header, transitions to the
other file's tail, and past the second header returns the sentinel.  Its
state is the list of entries not yet yielded, newest first. -/
def log_init_iterator (log : HamLog) : List LogEntry :=
  (log_entries_chronological log).reverse

/-- The sentinel entry with `lsn = 0` returned past the end (§3, §9). -/
def log_sentinel : LogEntry := {}

/-- Modelled from the spec (§4.4): `get_entry` yields the next (older)
entry, or the sentinel with `lsn = 0` past the end. -/
def ham_log_get_entry : List LogEntry → LogEntry × List LogEntry
  | [] => (log_sentinel, [])
  | e :: rest => (e, rest)

/-! ## Recovery engine -/

/-- Modelled from the spec (§4.6): the per-transaction state machine
observed during the analysis pass. -/
inductive TxnState where
  | committed
  | aborted
  | inflight
  | untracked
deriving DecidableEq, Repr

/-- Modelled from the spec (§4.6 analysis, §9): the backward scan decides
a transaction's state by the first TXN_COMMIT or TXN_ABORT it meets
(first-commit-wins); a transaction with a TXN_BEGIN but no terminal entry
is in-flight, everything else (system entries with txn id 0 included) is
untracked.  `entries` is the chronological entry list. -/
def txn_state (entries : List LogEntry) (tid : Nat) : TxnState :=
  match entries.reverse.find? (fun e =>
      e.txn_id == tid &&
        (e.etype == LogEntryType.txn_commit ||
         e.etype == LogEntryType.txn_abort)) with
  | some e =>
      if e.etype == LogEntryType.txn_commit then TxnState.committed
      else TxnState.aborted
  | none =>
      if entries.any (fun e =>
          e.txn_id == tid && e.etype == LogEntryType.txn_begin) then
        TxnState.inflight
      else TxnState.untracked

/-- The data file, abstracted as a map from byte offsets to the page
images stored there. -/
abbrev DataFile := List (Nat × Image)

/-- Write an image to the data file at an offset (used by redo and
undo through the pager's `write_page_at`). -/
def df_write (df : DataFile) (off : Nat) (img : Image) : DataFile :=
  if df.any (fun p => p.1 == off) then
    df.map (fun p => if p.1 == off then (off, img) else p)
  else
    df ++ [(off, img)]

/-- Read the image stored in the data file at an offset. -/
def df_read (df : DataFile) (off : Nat) : Option Image :=
  (df.find? (fun p => p.1 == off)).map (fun p => p.2)

/-- Modelled from the spec (§4.6 redo): the entries the redo pass walks:
forward from the most recent CHECKPOINT, or from the beginning if there
is none. -/
def redo_entries (entries : List LogEntry) : List LogEntry :=
  (entries.reverse.takeWhile
    (fun e => !(e.etype == LogEntryType.checkpoint))).reverse

/-- Modelled from the spec (§4.6 redo): one redo step: a WRITE or
OVERWRITE entry of a committed transaction writes its after-image (for
OVERWRITE the new-image half) to the data file at the entry's offset;
FLUSH_PAGE entries are advisory and mutate nothing. -/
def redo_step (committed : Nat → Bool) (df : DataFile) (e : LogEntry) :
    DataFile :=
  if committed e.txn_id then
    match e.etype, e.img1, e.img2 with
    | LogEntryType.write, some img, _ => df_write df e.offset img
    | LogEntryType.overwrite, _, some img => df_write df e.offset img
    | _, _, _ => df
  else df

/-- Modelled from the spec (§4.6 redo): the forward redo pass over the
chronological entries. -/
def ham_log_redo (entries : List LogEntry) (df : DataFile) : DataFile :=
  (redo_entries entries).foldl
    (redo_step (fun t => txn_state entries t == TxnState.committed)) df

/-- Modelled from the spec (§4.6 undo): one undo step: a PREWRITE or
OVERWRITE entry of an in-flight transaction writes its before-image (for
OVERWRITE the old-image half) back to the data file. -/
def undo_step (inflight : Nat → Bool) (df : DataFile) (e : LogEntry) :
    DataFile :=
  if inflight e.txn_id then
    match e.etype, e.img1 with
    | LogEntryType.prewrite, some img => df_write df e.offset img
    | LogEntryType.overwrite, some img => df_write df e.offset img
    | _, _ => df
  else df

/-- Modelled from the spec (§4.6 undo): the backward undo pass, from the
tail of the log. -/
def ham_log_undo (entries : List LogEntry) (df : DataFile) : DataFile :=
  entries.reverse.foldl
    (undo_step (fun t => txn_state entries t == TxnState.inflight)) df

/-- Modelled from the spec (§4.6): auto-recovery: analysis, redo of
committed transactions, undo of in-flight transactions, then an fsync on
the data file, clearing the log and resetting the current LSN to 1. -/
def ham_log_recover (log : HamLog) (df : DataFile) : HamLog × DataFile :=
  let entries := log_entries_chronological log
  let df2 := ham_log_redo entries df
  let df3 := ham_log_undo entries df2
  (ham_log_clear log, df3)

/-! ## Database glue: pager, transactions, lifecycle -/

/-- Modelled from the spec (§6): the pager's page size
(`os_get_pagesize`); the database header lives in the page at offset 0,
the btree root page at offset `pagesize`. -/
def pagesize : Nat := 4096

/-- A cached page: its address in the data file, its in-memory image and
its dirty flag. -/
structure CachedPage where
  offset : Nat
  img : Image
  dirty : Bool
deriving DecidableEq, Repr

/-- Modelled from the spec (§3): a transaction handle: the TXN-ID
assigned at begin and the read-only flag it was begun with. -/
structure Txn where
  id : Nat
  read_only : Bool
deriving DecidableEq, Repr

/-- Modelled from the spec (§2, §4.5): the running database instance: its
log, the data file, the page cache, the set of page addresses whose
before-image is already journaled since the last checkpoint (the unit
tests singleInsertTest / insertAfterCheckpointTest pin down that the
before-image of a page is emitted once per checkpoint window), and the
next TXN-ID the transaction manager will assign. -/
structure Db where
  log : HamLog
  disk : DataFile
  cache : List CachedPage
  journaled : List Nat
  next_txn : Nat
deriving DecidableEq, Repr

/-- What survives a close: the log files and the data file. -/
structure Persisted where
  log : HamLog
  disk : DataFile
deriving DecidableEq, Repr

/-- Modelled from the spec (§7): the error kinds surfaced at the WAL
boundary that the claims exercise. -/
inductive HamStatus where
  | need_recovery
  | io_error
  | file_not_found
  | inv_file_header
deriving DecidableEq, Repr

/-- Modelled from the spec (§4.7, §4.5): database create with recovery
enabled: a fresh log is created and the pager allocates the first page
(the btree root at offset `pagesize`), journaling its before-image as a
system entry with txn id 0 before any transaction exists (the unit tests
txnBeginAbortTest / allocatePageTest observe this PREWRITE). -/
def db_create : Db :=
  let log := ham_log_create
  let log := ham_log_append_prewrite log 0 pagesize pagesize []
  { log := log, disk := [(pagesize, [])],
    cache := [{ offset := pagesize, img := [], dirty := false }],
    journaled := [pagesize], next_txn := 1 }

/-- Image of a page as currently cached (empty page if absent). -/
def db_cached_img (db : Db) (off : Nat) : Image :=
  ((db.cache.find? (fun p => p.offset == off)).map CachedPage.img).getD []

/-- Modelled from the spec (§4.5): `add_page_before`: for a page first
dirtied since the last checkpoint, copy its current bytes and emit a
PREWRITE entry; the set of already-journaled page addresses prevents
double emission. -/
def ham_log_add_page_before (db : Db) (tid off : Nat) : Db :=
  if db.journaled.contains off then db
  else
    { db with
      log := ham_log_append_prewrite db.log tid off pagesize
               (db_cached_img db off),
      journaled := off :: db.journaled }

/-- Modelled from the spec (§3): `txn_begin` assigns the next TXN-ID and,
for a writable transaction, journals TXN_BEGIN; a read-only transaction
is not journaled at all but still consumes its TXN-ID (behaviour fixed by
the unit test multipleTxnReadonlyBeginCommitTest). -/
def db_txn_begin (db : Db) (ro : Bool) : Txn × Db :=
  let t : Txn := { id := db.next_txn, read_only := ro }
  let db := { db with next_txn := db.next_txn + 1 }
  if ro then (t, db)
  else (t, { db with log := ham_log_append_txn_begin db.log t.id })

/-- Modelled from the spec (§2 data flow): `txn_commit` journals the
TXN_COMMIT entry (nothing for a read-only transaction); if the commit
inserted a checkpoint and rotated, the journaled-pages set starts a new
window. -/
def db_txn_commit (db : Db) (t : Txn) : Db :=
  if t.read_only then db
  else
    let curfd := db.log.current_fd
    let db := { db with log := ham_log_append_txn_commit db.log t.id }
    if db.log.current_fd == curfd then db else { db with journaled := [] }

/-- Modelled from the spec (§2 data flow, §4.5): a full `ham_insert` of a
key/value pair: begin a transaction; fetch the btree root page, journal
its before-image once per checkpoint window, mutate it in memory and mark
it dirty; journal the after-image (WRITE) and commit.  The data-file
write itself is deferred to the pager's flush (the unit test
redoInsertTest relies on no data-file write having happened yet). -/
def db_insert (db : Db) (k v : String) : Db :=
  let tdb := db_txn_begin db false
  let t := tdb.1
  let db := tdb.2
  let oldimg := db_cached_img db pagesize
  let db := ham_log_add_page_before db t.id pagesize
  let newimg := oldimg ++ [(k, v)]
  let db := { db with
    cache := db.cache.map (fun p : CachedPage =>
      if p.offset == pagesize then
        { offset := pagesize, img := newimg, dirty := true }
      else p) }
  let db := { db with
    log := ham_log_append_write db.log t.id pagesize pagesize newimg }
  db_txn_commit db t

/-- Mark every cached page clean without writing it back
(`page_set_undirty` over the cache's total list, as redoInsertTest
does). -/
def db_set_all_pages_undirty (db : Db) : Db :=
  { db with cache := db.cache.map (fun p => { p with dirty := false }) }

/-- Modelled from the spec (§4.7 close, §4.5, §9 open question): close:
the pager writes every dirty cached page back to the data file and emits
a FLUSH_PAGE entry for each cached page (clean pages included); unless
`dont_clear` is set the log is cleared. -/
def db_close (db : Db) (dont_clear : Bool) : Persisted :=
  let disk := db.cache.foldl
    (fun d p => if p.dirty then df_write d p.offset p.img else d) db.disk
  let log := db.cache.foldl
    (fun l p => ham_log_append_flush_page l p.offset) db.log
  let log := if dont_clear then log else ham_log_clear log
  { log := log, disk := disk }

/-- Modelled from the spec (§6): the recovery-related open flags. -/
structure OpenFlags where
  enable_recovery : Bool := false
  auto_recovery : Bool := false
deriving DecidableEq, Repr

/-- Modelled from the spec (§4.6, §4.7 open): open: with an empty log the
database comes up as is; a non-empty log triggers auto-recovery when
AUTO_RECOVERY is set and otherwise fails with NEED_RECOVERY, leaving the
persisted state intact.  Returns the result and the persisted state after
the call. -/
def db_open (flags : OpenFlags) (p : Persisted) :
    Except HamStatus Db × Persisted :=
  if ham_log_is_empty p.log then
    (Except.ok { log := p.log, disk := p.disk, cache := [],
                 journaled := [], next_txn := 1 }, p)
  else if flags.auto_recovery then
    let r := ham_log_recover p.log p.disk
    (Except.ok { log := r.1, disk := r.2, cache := [],
                 journaled := [], next_txn := 1 },
     { log := r.1, disk := r.2 })
  else
    (Except.error HamStatus.need_recovery, p)

/-- Modelled from the spec (§8 scenarios): `ham_find`: look the key up in
the btree root page, consulting the cache first and the data file
otherwise; `none` is the NOT_FOUND outcome. -/
def db_find (db : Db) (k : String) : Option String :=
  let img :=
    match db.cache.find? (fun p => p.offset == pagesize) with
    | some p => p.img
    | none => (df_read db.disk pagesize).getD []
  (img.find? (fun q => q.1 == k)).map (fun q => q.2)

/-- The patching step of the undo scenario (patchLogfile in the unit
tests): rewrite the TXN_COMMIT entry of the given transaction, in place
in whichever log file holds it, into a TXN_ABORT entry. -/
def patch_commit_to_abort (log : HamLog) (tid : Nat) : HamLog :=
  let fix := fun (f : LogFile) =>
    { f with entries := f.entries.map (fun e =>
        if e.etype == LogEntryType.txn_commit && e.txn_id == tid then
          { e with etype := LogEntryType.txn_abort }
        else e) }
  { log with f0 := fix log.f0, f1 := fix log.f1 }

/-! ## Concrete scenarios from the spec and the unit tests -/

/-- Key "x" of the end-to-end scenarios. -/
def keyX : String := "x"

/-- Value "2" of the end-to-end scenarios. -/
def valX : String := "2"

/-- Key "y" of the end-to-end scenarios. -/
def keyY : String := "y"

/-- Value "3" of the end-to-end scenarios. -/
def valY : String := "3"

/-- The undo scenario (spec §8 scenario 5, unit test undoInsertTest):
insert "x"="2" (txn 1) then "y"="3" (txn 2), close with dont_clear, then
patch txn 2's TXN_COMMIT entry in the log file into TXN_ABORT. -/
def undo_scenario : Persisted :=
  let db := db_insert (db_insert db_create keyX valX) keyY valY
  let p := db_close db true
  { p with log := patch_commit_to_abort p.log 2 }

/-- The redo scenario (spec §8 scenario 6, unit test redoInsertTest):
insert "x"="2", mark every cached page clean so nothing reaches the data
file, close with dont_clear. -/
def redo_scenario : Persisted :=
  db_close (db_set_all_pages_undirty (db_insert db_create keyX valX)) true

/-- Seven transactions, each a TXN_BEGIN / TXN_COMMIT pair, against a
fresh log with checkpoint threshold 5 (unit test insertCheckpointTest). -/
def checkpoint_run7 : HamLog :=
  (List.range 7).foldl
    (fun log i =>
      ham_log_append_txn_commit (ham_log_append_txn_begin log (i + 1)) (i + 1))
    (log_set_threshold ham_log_create 5)

/-- A log state about to rotate for the second time: threshold 1,
transaction 1 begun and committed (first rotation), transaction 2 begun.
The next commit rotates back to file 0 and resets file 0's counters. -/
def second_rotation_state : HamLog :=
  ham_log_append_txn_begin
    (ham_log_append_txn_commit
      (ham_log_append_txn_begin (log_set_threshold ham_log_create 1) 1) 1) 2

/-- A fresh database after a read-only begin/commit followed by a
writable begin/commit (unit test multipleTxnReadonlyBeginCommitTest):
the read-only transaction's begin. -/
def readonly_run_begin1 : Txn × Db := db_txn_begin db_create true

/-- The database after committing the read-only transaction. -/
def readonly_run_after1 : Db :=
  db_txn_commit readonly_run_begin1.2 readonly_run_begin1.1

/-- The writable transaction begun after the read-only one. -/
def readonly_run_begin2 : Txn × Db := db_txn_begin readonly_run_after1 false

/-- The database after both transactions committed. -/
def readonly_run_db : Db :=
  db_txn_commit readonly_run_begin2.2 readonly_run_begin2.1

/-- A database created with recovery enabled and closed with dont_clear
without any user mutation (unit tests txnBeginAbortTest /
allocatePageTest observe the resulting log). -/
def create_close_persisted : Persisted := db_close db_create true

/-- A non-empty log: one TXN_BEGIN appended to a fresh log. -/
def one_entry_log : HamLog := ham_log_append_txn_begin ham_log_create 1

/-- A log with three appended entries, LSNs 1, 2, 3. -/
def three_entry_log : HamLog :=
  ham_log_append_txn_begin
    (ham_log_append_txn_begin (ham_log_append_txn_begin ham_log_create 1) 2) 3

/-- The checkpoint-policy trigger as observed before a commit or abort:
after the counter update no transaction will be open in the current file
(at most one is open now) and the closed-transaction count will reach
the threshold. -/
def closes_checkpoint_window (log : HamLog) : Prop :=
  log_get_open_txn log log.current_fd ≤ 1
  ∧ log.threshold ≤ log_get_closed_txn log log.current_fd + 1

instance (log : HamLog) : Decidable (closes_checkpoint_window log) := by
  unfold closes_checkpoint_window; infer_instance

/-! ## Claims -/

/-- C1: Undo of an uncommitted transaction during auto-recovery: after
inserting "x"="2" (txn 1) and "y"="3" (txn 2), closing with dont_clear,
rewriting txn 2's TXN_COMMIT entry in the log to TXN_ABORT, and
re-opening with auto-recovery, the open succeeds, a lookup of "x" returns
"2" and a lookup of "y" fails with not-found. -/
theorem undo_uncommitted_recovery :
    ((db_open { enable_recovery := true, auto_recovery := true }
        undo_scenario).1.map
      (fun d => (db_find d keyX, db_find d keyY)))
      = Except.ok (some valX, none) := rfl

/-- C2: Redo of a committed transaction whose pages were never flushed:
after inserting "x"="2", marking every cached page clean, closing with
dont_clear and re-opening with auto-recovery, the open succeeds and a
lookup of "x" returns "2": the committed after-image was replayed to the
data file. -/
theorem redo_lost_flush_recovery :
    ((db_open { enable_recovery := true, auto_recovery := true }
        redo_scenario).1.map (fun d => db_find d keyX))
      = Except.ok (some valX) := rfl

/-- C3: After auto-recovery completes on a non-empty log, the log is
cleared: both log files are truncated to their header (no entries), the
current LSN equals 1 and the current-file index is 0. -/
theorem recover_clears_log (log : HamLog) (df : DataFile)
    (_h : ¬ ham_log_is_empty log) :
    (ham_log_recover log df).1.f0.entries = []
    ∧ (ham_log_recover log df).1.f1.entries = []
    ∧ (ham_log_recover log df).1.lsn = 1
    ∧ (ham_log_recover log df).1.current_fd = 0 := by
  simp [ham_log_recover, ham_log_clear]

/-- Witness for C3 at a concrete non-empty log. -/
theorem recover_clears_log_witness :
    ¬ ham_log_is_empty one_entry_log
    ∧ ((ham_log_recover one_entry_log []).1.f0.entries = []
      ∧ (ham_log_recover one_entry_log []).1.f1.entries = []
      ∧ (ham_log_recover one_entry_log []).1.lsn = 1
      ∧ (ham_log_recover one_entry_log []).1.current_fd = 0) :=
  ⟨by decide, recover_clears_log one_entry_log [] (by decide)⟩

/-- C4: Opening a database whose log is non-empty with recovery enabled
but without the auto-recovery flag fails with NEED_RECOVERY and leaves
the persisted log intact, so a subsequent open with auto-recovery
succeeds. -/
theorem open_need_recovery_leaves_log_intact (p : Persisted)
    (h : ¬ ham_log_is_empty p.log) :
    (db_open { enable_recovery := true } p).1
      = Except.error HamStatus.need_recovery
    ∧ (db_open { enable_recovery := true } p).2 = p
    ∧ ∃ d, (db_open { enable_recovery := true, auto_recovery := true } p).1
      = Except.ok d := by
  refine ⟨?_, ?_, ?_⟩ <;> simp [db_open, h]

/-- Witness for C4 at a concrete non-empty persisted state. -/
theorem open_need_recovery_witness :
    ¬ ham_log_is_empty create_close_persisted.log
    ∧ ((db_open { enable_recovery := true } create_close_persisted).1
        = Except.error HamStatus.need_recovery
      ∧ (db_open { enable_recovery := true } create_close_persisted).2
        = create_close_persisted
      ∧ ∃ d, (db_open { enable_recovery := true, auto_recovery := true }
          create_close_persisted).1 = Except.ok d) :=
  ⟨by decide,
   open_need_recovery_leaves_log_intact create_close_persisted (by decide)⟩

/-- C5: Checkpoint-driven rotation at the threshold: on a freshly created
log with checkpoint threshold 5, seven transactions that each append
TXN_BEGIN and TXN_COMMIT trigger exactly one rotation: afterwards the
current-file index is 1 and exactly one CHECKPOINT entry is retained in
the log. -/
theorem checkpoint_rotation_at_threshold :
    checkpoint_run7.current_fd = 1
    ∧ (log_entries_chronological checkpoint_run7).countP
        (fun e => e.etype == LogEntryType.checkpoint) = 1 :=
  ⟨rfl, rfl⟩

/-- C8: For every log state, clear truncates both files to header-only
(`is_empty` holds), resets the current LSN to 1 and resets all four
open/closed transaction counters to 0. -/
theorem clear_resets_log (log : HamLog) :
    ham_log_is_empty (ham_log_clear log)
    ∧ (ham_log_clear log).lsn = 1
    ∧ log_get_open_txn (ham_log_clear log) 0 = 0
    ∧ log_get_closed_txn (ham_log_clear log) 0 = 0
    ∧ log_get_open_txn (ham_log_clear log) 1 = 0
    ∧ log_get_closed_txn (ham_log_clear log) 1 = 0 := by
  simp [ham_log_is_empty, ham_log_clear, log_get_open_txn,
    log_get_closed_txn, log_get_file]

/-- C9: Read-only transactions are not journaled: after a read-only
begin/commit followed by a writable begin/commit on a fresh database, the
log holds no entry for the read-only transaction (id 1) — only the
system PREWRITE from create and the TXN_BEGIN / TXN_COMMIT of the
writable transaction, which was journaled with the next higher TXN-ID
2. -/
theorem readonly_txn_not_journaled :
    (log_entries_chronological readonly_run_db.log).map
        (fun e => (e.etype, e.txn_id))
      = [(LogEntryType.prewrite, 0), (LogEntryType.txn_begin, 2),
         (LogEntryType.txn_commit, 2)]
    ∧ readonly_run_begin2.1.id = 2
    ∧ (log_entries_chronological readonly_run_db.log).all
        (fun e => e.txn_id != 1) = true :=
  ⟨rfl, rfl, rfl⟩

/-- C10: Creating a database with recovery enabled journals a system
PREWRITE entry with txn id 0 for the first allocated page (a before-image
of the whole page, offset and size `pagesize`), and close emits
FLUSH_PAGE entries with txn id 0, so the log of a database that executed
no user mutation is still non-empty after close(dont_clear). -/
theorem create_close_system_entries :
    (log_entries_chronological create_close_persisted.log).map
        (fun e => (e.etype, e.txn_id, e.offset, e.data_size))
      = [(LogEntryType.prewrite, 0, pagesize, pagesize),
         (LogEntryType.flush_page, 0, pagesize, 0)]
    ∧ ¬ ham_log_is_empty create_close_persisted.log :=
  ⟨rfl, by decide⟩

/-- C6: For every log holding appended entries with LSNs 1..n, a full
iteration yields the entries newest first with LSNs n, n-1, ..., 1
contiguously (no gaps, no duplicates); once the n entries are consumed,
get_entry returns the sentinel with lsn 0 — in particular, on an empty
log (n = 0) already the first call does. -/
theorem log_iteration_reverse_lsns (log : HamLog) (n : Nat)
    (h : (log_entries_chronological log).map LogEntry.lsn = List.range' 1 n) :
    (log_init_iterator log).map LogEntry.lsn = (List.range' 1 n).reverse
    ∧ (ham_log_get_entry ((log_init_iterator log).drop n)).1.lsn = 0
    ∧ (n = 0 → (ham_log_get_entry (log_init_iterator log)).1.lsn = 0) := by
  have hmap : (log_init_iterator log).map LogEntry.lsn
      = (List.range' 1 n).reverse := by
    rw [log_init_iterator, List.map_reverse, h]
  have hlen : (log_init_iterator log).length = n := by
    have h2 := congrArg List.length hmap
    simpa using h2
  refine ⟨hmap, ?_, ?_⟩
  · have hd : (log_init_iterator log).drop n = [] :=
      List.drop_eq_nil_of_le (by omega)
    rw [hd]; rfl
  · intro hn
    have hnil : log_init_iterator log = [] :=
      List.eq_nil_of_length_eq_zero (by omega)
    rw [hnil]; rfl

/-- Witness for C6 at a log whose three entries carry LSNs 1, 2, 3. -/
theorem log_iteration_reverse_lsns_witness :
    ((log_entries_chronological three_entry_log).map LogEntry.lsn
        = List.range' 1 3)
    ∧ ((log_init_iterator three_entry_log).map LogEntry.lsn
        = (List.range' 1 3).reverse
      ∧ (ham_log_get_entry
          ((log_init_iterator three_entry_log).drop 3)).1.lsn = 0
      ∧ (3 = 0 →
          (ham_log_get_entry (log_init_iterator three_entry_log)).1.lsn = 0)) :=
  ⟨by decide, log_iteration_reverse_lsns three_entry_log 3 (by decide)⟩

/-- Appending an entry changes no counter, not the current-file index and
not the threshold. -/
theorem log_append_entry_counters (log : HamLog) (e : LogEntry) :
    (log_append_entry log e).current_fd = log.current_fd
    ∧ (log_append_entry log e).threshold = log.threshold
    ∧ (∀ i, log_get_open_txn (log_append_entry log e) i
        = log_get_open_txn log i)
    ∧ (∀ i, log_get_closed_txn (log_append_entry log e) i
        = log_get_closed_txn log i) := by
  unfold log_append_entry log_set_file log_get_open_txn log_get_closed_txn
    log_get_file
  by_cases hc : log.current_fd = 0 <;>
    refine ⟨by simp [hc], by simp [hc], fun i => ?_, fun i => ?_⟩ <;>
    by_cases hi : i = 0 <;> simp [hc, hi]

/-- `log_bump_closed` migrates one transaction of the current file from
open to closed and leaves the other file's counters, the current-file
index and the threshold alone. -/
theorem log_bump_closed_counters (log : HamLog) :
    (log_bump_closed log).current_fd = log.current_fd
    ∧ (log_bump_closed log).threshold = log.threshold
    ∧ log_get_open_txn (log_bump_closed log) log.current_fd
        = log_get_open_txn log log.current_fd - 1
    ∧ log_get_closed_txn (log_bump_closed log) log.current_fd
        = log_get_closed_txn log log.current_fd + 1
    ∧ log_get_open_txn (log_bump_closed log) (log_other_fd log)
        = log_get_open_txn log (log_other_fd log)
    ∧ log_get_closed_txn (log_bump_closed log) (log_other_fd log)
        = log_get_closed_txn log (log_other_fd log) := by
  unfold log_bump_closed log_set_file log_get_open_txn log_get_closed_txn
    log_get_file log_other_fd
  by_cases hc : log.current_fd = 0 <;> simp [hc]

/-- `log_bump_open` increments the open counter of the current file and
leaves everything else alone. -/
theorem log_bump_open_counters (log : HamLog) :
    (log_bump_open log).current_fd = log.current_fd
    ∧ log_get_open_txn (log_bump_open log) log.current_fd
        = log_get_open_txn log log.current_fd + 1
    ∧ log_get_closed_txn (log_bump_open log) log.current_fd
        = log_get_closed_txn log log.current_fd
    ∧ log_get_open_txn (log_bump_open log) (log_other_fd log)
        = log_get_open_txn log (log_other_fd log)
    ∧ log_get_closed_txn (log_bump_open log) (log_other_fd log)
        = log_get_closed_txn log (log_other_fd log) := by
  unfold log_bump_open log_set_file log_get_open_txn log_get_closed_txn
    log_get_file log_other_fd
  by_cases hc : log.current_fd = 0 <;> simp [hc]

/-- When the checkpoint condition holds on the state after the counter
update, `log_maybe_checkpoint` appends a CHECKPOINT and rotates. -/
theorem log_maybe_checkpoint_eq_pos (log : HamLog)
    (h1 : log_get_open_txn log log.current_fd = 0)
    (h2 : log.threshold ≤ log_get_closed_txn log log.current_fd) :
    log_maybe_checkpoint log
      = log_rotate (ham_log_append_checkpoint log) := by
  have hcond : (log_get_file log log.current_fd).open_txn = 0
      ∧ log.threshold ≤ (log_get_file log log.current_fd).closed_txn :=
    ⟨h1, h2⟩
  show (if (log_get_file log log.current_fd).open_txn = 0 ∧
        log.threshold ≤ (log_get_file log log.current_fd).closed_txn then
      log_rotate (ham_log_append_checkpoint log) else log)
    = log_rotate (ham_log_append_checkpoint log)
  rw [if_pos hcond]

/-- When the checkpoint condition does not hold, `log_maybe_checkpoint`
is the identity. -/
theorem log_maybe_checkpoint_eq_neg (log : HamLog)
    (h : ¬ (log_get_open_txn log log.current_fd = 0
      ∧ log.threshold ≤ log_get_closed_txn log log.current_fd)) :
    log_maybe_checkpoint log = log := by
  have hcond : ¬ ((log_get_file log log.current_fd).open_txn = 0
      ∧ log.threshold ≤ (log_get_file log log.current_fd).closed_txn) := h
  show (if (log_get_file log log.current_fd).open_txn = 0 ∧
        log.threshold ≤ (log_get_file log log.current_fd).closed_txn then
      log_rotate (ham_log_append_checkpoint log) else log)
    = log
  rw [if_neg hcond]

/-- `ham_log_append_checkpoint` changes no counter and not the
current-file index. -/
theorem ham_log_append_checkpoint_counters (log : HamLog) :
    (ham_log_append_checkpoint log).current_fd = log.current_fd
    ∧ (∀ i, log_get_open_txn (ham_log_append_checkpoint log) i
        = log_get_open_txn log i)
    ∧ (∀ i, log_get_closed_txn (ham_log_append_checkpoint log) i
        = log_get_closed_txn log i) := by
  obtain ⟨ha1, _ha2, ha3, ha4⟩ :=
    log_append_entry_counters log { etype := LogEntryType.checkpoint }
  exact ⟨ha1, ha3, ha4⟩

/-- Rotation makes the other file current with counters reset, and keeps
the old current file's counters. -/
theorem log_rotate_counters (log : HamLog) :
    (log_rotate log).current_fd = log_other_fd log
    ∧ log_get_open_txn (log_rotate log) (log_other_fd log) = 0
    ∧ log_get_closed_txn (log_rotate log) (log_other_fd log) = 0
    ∧ log_get_open_txn (log_rotate log) log.current_fd
        = log_get_open_txn log log.current_fd
    ∧ log_get_closed_txn (log_rotate log) log.current_fd
        = log_get_closed_txn log log.current_fd := by
  unfold log_rotate log_set_file log_other_fd log_get_open_txn
    log_get_closed_txn log_get_file
  by_cases hc : log.current_fd = 0 <;> simp [hc]

/-- Effect of the full commit/abort path (append entry, migrate the
transaction to closed, maybe checkpoint and rotate) on the counters and
the current-file index, for any appended entry and any log state. -/
theorem log_close_path_counters (log : HamLog) (e : LogEntry) :
    log_get_open_txn
        (log_maybe_checkpoint (log_bump_closed (log_append_entry log e)))
        log.current_fd
      = log_get_open_txn log log.current_fd - 1
    ∧ log_get_closed_txn
        (log_maybe_checkpoint (log_bump_closed (log_append_entry log e)))
        log.current_fd
      = log_get_closed_txn log log.current_fd + 1
    ∧ (closes_checkpoint_window log →
        (log_maybe_checkpoint
            (log_bump_closed (log_append_entry log e))).current_fd
          = log_other_fd log
        ∧ log_get_open_txn
            (log_maybe_checkpoint (log_bump_closed (log_append_entry log e)))
            (log_other_fd log) = 0
        ∧ log_get_closed_txn
            (log_maybe_checkpoint (log_bump_closed (log_append_entry log e)))
            (log_other_fd log) = 0)
    ∧ (¬ closes_checkpoint_window log →
        (log_maybe_checkpoint
            (log_bump_closed (log_append_entry log e))).current_fd
          = log.current_fd
        ∧ log_get_open_txn
            (log_maybe_checkpoint (log_bump_closed (log_append_entry log e)))
            (log_other_fd log)
          = log_get_open_txn log (log_other_fd log)
        ∧ log_get_closed_txn
            (log_maybe_checkpoint (log_bump_closed (log_append_entry log e)))
            (log_other_fd log)
          = log_get_closed_txn log (log_other_fd log)) := by
  obtain ⟨ha1, ha2, ha3, ha4⟩ := log_append_entry_counters log e
  obtain ⟨hb1, hb2, hb3, hb4, hb5, hb6⟩ :=
    log_bump_closed_counters (log_append_entry log e)
  have hoa : log_other_fd (log_append_entry log e) = log_other_fd log := by
    unfold log_other_fd; rw [ha1]
  rw [ha1] at hb1 hb3 hb4
  rw [ha2] at hb2
  rw [hoa] at hb5 hb6
  rw [ha3] at hb3 hb5
  rw [ha4] at hb4 hb6
  by_cases hw : closes_checkpoint_window log
  · obtain ⟨hw1, hw2⟩ := hw
    have h1 : log_get_open_txn (log_bump_closed (log_append_entry log e))
        (log_bump_closed (log_append_entry log e)).current_fd = 0 := by
      rw [hb1, hb3]; omega
    have h2 : (log_bump_closed (log_append_entry log e)).threshold
        ≤ log_get_closed_txn (log_bump_closed (log_append_entry log e))
            (log_bump_closed (log_append_entry log e)).current_fd := by
      rw [hb2, hb1, hb4]; exact hw2
    have heq := log_maybe_checkpoint_eq_pos
      (log_bump_closed (log_append_entry log e)) h1 h2
    obtain ⟨hc1, hc2, hc3⟩ := ham_log_append_checkpoint_counters
      (log_bump_closed (log_append_entry log e))
    have hoc : log_other_fd
        (ham_log_append_checkpoint (log_bump_closed (log_append_entry log e)))
        = log_other_fd log := by
      unfold log_other_fd; rw [hc1, hb1]
    obtain ⟨hr1, hr2, hr3, hr4, hr5⟩ := log_rotate_counters
      (ham_log_append_checkpoint (log_bump_closed (log_append_entry log e)))
    rw [hoc] at hr1 hr2 hr3
    rw [hc1, hb1] at hr4 hr5
    rw [hc2] at hr4
    rw [hc3] at hr5
    rw [hb3] at hr4
    rw [hb4] at hr5
    refine ⟨?_, ?_, ?_, ?_⟩
    · rw [heq, hr4]
    · rw [heq, hr5]
    · intro _hw
      exact ⟨by rw [heq, hr1], by rw [heq, hr2], by rw [heq, hr3]⟩
    · intro hnw
      exact absurd ⟨hw1, hw2⟩ hnw
  · have hcond : ¬ (log_get_open_txn (log_bump_closed (log_append_entry log e))
          (log_bump_closed (log_append_entry log e)).current_fd = 0
        ∧ (log_bump_closed (log_append_entry log e)).threshold
          ≤ log_get_closed_txn (log_bump_closed (log_append_entry log e))
              (log_bump_closed (log_append_entry log e)).current_fd) := by
      intro hk
      obtain ⟨hk1, hk2⟩ := hk
      rw [hb1, hb3] at hk1
      rw [hb2, hb1, hb4] at hk2
      exact hw ⟨by omega, hk2⟩
    have heq := log_maybe_checkpoint_eq_neg
      (log_bump_closed (log_append_entry log e)) hcond
    refine ⟨?_, ?_, ?_, ?_⟩
    · rw [heq, hb3]
    · rw [heq, hb4]
    · intro hww; exact absurd hww hw
    · intro _hnw
      exact ⟨by rw [heq, hb1], by rw [heq, hb5], by rw [heq, hb6]⟩

/-- C7 counterexample: at `second_rotation_state` (current file 1; the
other file, file 0, holds closed_txn = 1 from before the first rotation)
appending TXN_COMMIT for transaction 2 triggers a second checkpoint
rotation which resets file 0's counters: the closed-transaction counter
of the other file changes from 1 to 0, refuting the claim that
append_txn_commit leaves the counters of the other file unchanged. -/
theorem txn_commit_changes_other_file_counters :
    second_rotation_state.current_fd = 1
    ∧ log_other_fd second_rotation_state = 0
    ∧ log_get_closed_txn second_rotation_state 0 = 1
    ∧ log_get_closed_txn (ham_log_append_txn_commit second_rotation_state 2) 0
        = 0
    ∧ ¬ (log_get_closed_txn (ham_log_append_txn_commit second_rotation_state 2)
          (log_other_fd second_rotation_state)
        = log_get_closed_txn second_rotation_state
            (log_other_fd second_rotation_state)) := by
  decide

/-- C7 (amended): for every log state: append_txn_begin increments
open_txn of the current file, leaving its closed_txn and both counters
of the other file unchanged; append_txn_commit and append_txn_abort each
decrement open_txn of the (pre-call) current file by one (truncated at
zero) and increment its closed_txn by one; the counters of the other
file are unchanged unless the commit/abort closes the checkpoint window
(the update leaves no open transaction and the closed count reaches the
threshold), in which case the other file becomes the current file with
both of its counters reset to 0.  (All counters are naturals, hence
non-negative.) -/
theorem txn_counter_transitions_amended (log : HamLog) (t : Nat) :
    (log_get_open_txn (ham_log_append_txn_begin log t) log.current_fd
        = log_get_open_txn log log.current_fd + 1
      ∧ log_get_closed_txn (ham_log_append_txn_begin log t) log.current_fd
        = log_get_closed_txn log log.current_fd
      ∧ log_get_open_txn (ham_log_append_txn_begin log t) (log_other_fd log)
        = log_get_open_txn log (log_other_fd log)
      ∧ log_get_closed_txn (ham_log_append_txn_begin log t) (log_other_fd log)
        = log_get_closed_txn log (log_other_fd log))
    ∧ (log_get_open_txn (ham_log_append_txn_commit log t) log.current_fd
        = log_get_open_txn log log.current_fd - 1
      ∧ log_get_closed_txn (ham_log_append_txn_commit log t) log.current_fd
        = log_get_closed_txn log log.current_fd + 1
      ∧ (closes_checkpoint_window log →
          (ham_log_append_txn_commit log t).current_fd = log_other_fd log
          ∧ log_get_open_txn (ham_log_append_txn_commit log t)
              (log_other_fd log) = 0
          ∧ log_get_closed_txn (ham_log_append_txn_commit log t)
              (log_other_fd log) = 0)
      ∧ (¬ closes_checkpoint_window log →
          (ham_log_append_txn_commit log t).current_fd = log.current_fd
          ∧ log_get_open_txn (ham_log_append_txn_commit log t)
              (log_other_fd log) = log_get_open_txn log (log_other_fd log)
          ∧ log_get_closed_txn (ham_log_append_txn_commit log t)
              (log_other_fd log) = log_get_closed_txn log (log_other_fd log)))
    ∧ (log_get_open_txn (ham_log_append_txn_abort log t) log.current_fd
        = log_get_open_txn log log.current_fd - 1
      ∧ log_get_closed_txn (ham_log_append_txn_abort log t) log.current_fd
        = log_get_closed_txn log log.current_fd + 1
      ∧ (closes_checkpoint_window log →
          (ham_log_append_txn_abort log t).current_fd = log_other_fd log
          ∧ log_get_open_txn (ham_log_append_txn_abort log t)
              (log_other_fd log) = 0
          ∧ log_get_closed_txn (ham_log_append_txn_abort log t)
              (log_other_fd log) = 0)
      ∧ (¬ closes_checkpoint_window log →
          (ham_log_append_txn_abort log t).current_fd = log.current_fd
          ∧ log_get_open_txn (ham_log_append_txn_abort log t)
              (log_other_fd log) = log_get_open_txn log (log_other_fd log)
          ∧ log_get_closed_txn (ham_log_append_txn_abort log t)
              (log_other_fd log)
            = log_get_closed_txn log (log_other_fd log))) := by
  refine ⟨?_, ?_, ?_⟩
  · obtain ⟨ha1, _ha2, ha3, ha4⟩ := log_append_entry_counters log
      { txn_id := t, etype := LogEntryType.txn_begin }
    obtain ⟨_hg1, hg2, hg3, hg4, hg5⟩ := log_bump_open_counters
      (log_append_entry log { txn_id := t, etype := LogEntryType.txn_begin })
    have hoa : log_other_fd (log_append_entry log
        { txn_id := t, etype := LogEntryType.txn_begin })
        = log_other_fd log := by
      unfold log_other_fd; rw [ha1]
    rw [ha1] at hg2 hg3
    rw [hoa] at hg4 hg5
    rw [ha3] at hg2 hg4
    rw [ha4] at hg3 hg5
    exact ⟨hg2, hg3, hg4, hg5⟩
  · exact log_close_path_counters log
      { txn_id := t, etype := LogEntryType.txn_commit }
  · exact log_close_path_counters log
      { txn_id := t, etype := LogEntryType.txn_abort }

/-- Witness for the amended C7 at the concrete state
`second_rotation_state`, which has exactly one open transaction in its
current file (and whose next commit does close the checkpoint window). -/
theorem txn_counter_transitions_amended_witness :
    ((log_get_open_txn (ham_log_append_txn_begin second_rotation_state 2)
          second_rotation_state.current_fd
        = log_get_open_txn second_rotation_state
            second_rotation_state.current_fd + 1
      ∧ log_get_closed_txn (ham_log_append_txn_begin second_rotation_state 2)
          second_rotation_state.current_fd
        = log_get_closed_txn second_rotation_state
            second_rotation_state.current_fd
      ∧ log_get_open_txn (ham_log_append_txn_begin second_rotation_state 2)
          (log_other_fd second_rotation_state)
        = log_get_open_txn second_rotation_state
            (log_other_fd second_rotation_state)
      ∧ log_get_closed_txn (ham_log_append_txn_begin second_rotation_state 2)
          (log_other_fd second_rotation_state)
        = log_get_closed_txn second_rotation_state
            (log_other_fd second_rotation_state))
    ∧ (log_get_open_txn (ham_log_append_txn_commit second_rotation_state 2)
          second_rotation_state.current_fd
        = log_get_open_txn second_rotation_state
            second_rotation_state.current_fd - 1
      ∧ log_get_closed_txn (ham_log_append_txn_commit second_rotation_state 2)
          second_rotation_state.current_fd
        = log_get_closed_txn second_rotation_state
            second_rotation_state.current_fd + 1
      ∧ (closes_checkpoint_window second_rotation_state →
          (ham_log_append_txn_commit second_rotation_state 2).current_fd
            = log_other_fd second_rotation_state
          ∧ log_get_open_txn
              (ham_log_append_txn_commit second_rotation_state 2)
              (log_other_fd second_rotation_state) = 0
          ∧ log_get_closed_txn
              (ham_log_append_txn_commit second_rotation_state 2)
              (log_other_fd second_rotation_state) = 0)
      ∧ (¬ closes_checkpoint_window second_rotation_state →
          (ham_log_append_txn_commit second_rotation_state 2).current_fd
            = second_rotation_state.current_fd
          ∧ log_get_open_txn
              (ham_log_append_txn_commit second_rotation_state 2)
              (log_other_fd second_rotation_state)
            = log_get_open_txn second_rotation_state
                (log_other_fd second_rotation_state)
          ∧ log_get_closed_txn
              (ham_log_append_txn_commit second_rotation_state 2)
              (log_other_fd second_rotation_state)
            = log_get_closed_txn second_rotation_state
                (log_other_fd second_rotation_state)))
    ∧ (log_get_open_txn (ham_log_append_txn_abort second_rotation_state 2)
          second_rotation_state.current_fd
        = log_get_open_txn second_rotation_state
            second_rotation_state.current_fd - 1
      ∧ log_get_closed_txn (ham_log_append_txn_abort second_rotation_state 2)
          second_rotation_state.current_fd
        = log_get_closed_txn second_rotation_state
            second_rotation_state.current_fd + 1
      ∧ (closes_checkpoint_window second_rotation_state →
          (ham_log_append_txn_abort second_rotation_state 2).current_fd
            = log_other_fd second_rotation_state
          ∧ log_get_open_txn
              (ham_log_append_txn_abort second_rotation_state 2)
              (log_other_fd second_rotation_state) = 0
          ∧ log_get_closed_txn
              (ham_log_append_txn_abort second_rotation_state 2)
              (log_other_fd second_rotation_state) = 0)
      ∧ (¬ closes_checkpoint_window second_rotation_state →
          (ham_log_append_txn_abort second_rotation_state 2).current_fd
            = second_rotation_state.current_fd
          ∧ log_get_open_txn
              (ham_log_append_txn_abort second_rotation_state 2)
              (log_other_fd second_rotation_state)
            = log_get_open_txn second_rotation_state
                (log_other_fd second_rotation_state)
          ∧ log_get_closed_txn
              (ham_log_append_txn_abort second_rotation_state 2)
              (log_other_fd second_rotation_state)
            = log_get_closed_txn second_rotation_state
                (log_other_fd second_rotation_state)))) :=
  txn_counter_transitions_amended second_rotation_state 2
